import Mathlib

set_option autoImplicit false

/-!
Shallow embedding of the tabular-to-spatial ingestion pipeline of
`dask_creating_spatial_data.ipynb`: read tab-delimited GeoNames rows under a
declared 19-column schema, concatenate the per-country dataframes, keep the
rows whose feature class equals a chosen value, attach a point geometry from
the longitude and latitude columns, and write the result as one named layer
of a GeoPackage container.

Rows of a source file are lists of field strings (the text between tab
separators).  Columns declared `int` in the `dtypes` dictionary of the notebook
are embedded as `Int`, columns declared `float` as `Option ℚ` with `none`
standing for NaN (the float representation pandas gives a missing field),
and columns declared `object` as `Option String` with `none` standing for a
missing field.  Rationals stand in for IEEE doubles: every operation the
pipeline performs on a coordinate is a copy or a comparison, so no rounding
behaviour is ever exercised and the embedding is exact.
-/

namespace SpatialPipeline

/-- One gazetteer record: the nineteen columns of `column_names`, with the
types given by the `dtypes` dictionary of the notebook. -/
structure Record where
  geonameid : Int
  name : Option String
  asciiname : Option String
  alternatenames : Option String
  latitude : Option ℚ
  longitude : Option ℚ
  featureClass : Option String
  featureCode : Option String
  countryCode : Option String
  cc2 : Option String
  admin1Code : Option String
  admin2Code : Option String
  admin3Code : Option String
  admin4Code : Option String
  population : Int
  elevation : Option ℚ
  dem : Int
  timezone : Option String
  modificationDate : Option String
deriving DecidableEq

/-- Numeric value of a list of decimal digit characters, most significant
first. -/
def natOfDigits (ds : List Char) : Nat :=
  ds.foldl (fun a c => a * 10 + (c.toNat - 48)) 0

/-- Unsigned decimal numeral with an optional fractional part, as accepted
by the float conversion pandas applies to a column declared `float`.  The
value is returned as a numerator over a power-of-ten denominator: the
numeral d1...dk.f1...fm stands for the rational d1...dkf1...fm / 10 ^ m. -/
def parseUnsigned (l : List Char) : Option (Nat × Nat) :=
  let intDs := l.takeWhile Char.isDigit
  let rest := l.dropWhile Char.isDigit
  match rest with
  | [] => if intDs.isEmpty then none else some (natOfDigits intDs, 1)
  | c :: fracDs =>
    if c == '.' && fracDs.all Char.isDigit && !(intDs.isEmpty && fracDs.isEmpty) then
      some (natOfDigits (intDs ++ fracDs), 10 ^ fracDs.length)
    else none

/-- Float conversion for a field of a column declared `float` in `dtypes`:
an optional sign followed by a decimal numeral.  A string that is not such a
numeral does not convert (pandas raises a conversion error for it). -/
def parseFloat? (s : String) : Option ℚ :=
  match s.toList with
  | [] => none
  | c :: rest =>
    if c == '-' then (parseUnsigned rest).map (fun p => mkRat (-(p.1 : Int)) p.2)
    else if c == '+' then (parseUnsigned rest).map (fun p => mkRat (p.1 : Int) p.2)
    else (parseUnsigned (c :: rest)).map (fun p => mkRat (p.1 : Int) p.2)

/-- Integer conversion for a field of a column declared `int` in `dtypes`:
an optional sign followed by decimal digits. -/
def parseInt? (s : String) : Option Int :=
  match s.toList with
  | [] => none
  | c :: rest =>
    if c == '-' then
      if !rest.isEmpty && rest.all Char.isDigit then some (-(natOfDigits rest : Int)) else none
    else if c == '+' then
      if !rest.isEmpty && rest.all Char.isDigit then some (natOfDigits rest : Int) else none
    else
      if (c :: rest).all Char.isDigit then some (natOfDigits (c :: rest) : Int) else none

/-- Errors pandas raises while reading under the declared schema: a row with
more fields than the declared names, a missing value in a column declared
`int`, or a field that fails numeric conversion for its declared dtype. -/
inductive LoadError where
  | extraColumns
  | intColumnNA
  | typeCoercion
deriving DecidableEq

deriving instance DecidableEq for Except

/-- Field of a row at a given column position, as pandas sees it: a row
shorter than the schema is padded with missing values at the tail, and an
empty field is the default missing-value marker. -/
def fieldAt (fields : List String) (i : Nat) : Option String :=
  match fields.get? i with
  | none => none
  | some s => if s == "" then none else some s

/-- Coercion of one field under dtype `int`: an int64 column cannot hold a
missing value, and a field that does not convert raises. -/
def coerceInt (f : Option String) : Except LoadError Int :=
  match f with
  | none => .error .intColumnNA
  | some s =>
    match parseInt? s with
    | none => .error .typeCoercion
    | some n => .ok n

/-- Coercion of one field under dtype `float`: a missing field becomes NaN
(embedded as `none`) and a field that is not a numeral raises. -/
def coerceFloat (f : Option String) : Except LoadError (Option ℚ) :=
  match f with
  | none => .ok none
  | some s =>
    match parseFloat? s with
    | none => .error .typeCoercion
    | some q => .ok (some q)

/-- One row read under `names = column_names` and `dtype = dtypes` as in the
`dd.read_csv` call of the notebook: fields are matched to the nineteen
declared columns positionally, a short row is padded with missing values,
and every field is coerced to the declared dtype of its column.  A row with more
fields than the schema is rejected; no claim in this development depends on
that branch. -/
def parseRow (fields : List String) : Except LoadError Record :=
  if 19 < fields.length then .error .extraColumns
  else do
    let gid ← coerceInt (fieldAt fields 0)
    let lat ← coerceFloat (fieldAt fields 4)
    let lon ← coerceFloat (fieldAt fields 5)
    let pop ← coerceInt (fieldAt fields 14)
    let elev ← coerceFloat (fieldAt fields 15)
    let dem ← coerceInt (fieldAt fields 16)
    .ok ⟨gid, fieldAt fields 1, fieldAt fields 2, fieldAt fields 3, lat, lon,
      fieldAt fields 6, fieldAt fields 7, fieldAt fields 8, fieldAt fields 9,
      fieldAt fields 10, fieldAt fields 11, fieldAt fields 12, fieldAt fields 13,
      pop, elev, dem, fieldAt fields 17, fieldAt fields 18⟩

/-- `dd.read_csv` with tab separator applied to the rows of one source
file; a failing row fails the whole load. -/
def read_csv : List (List String) → Except LoadError (List Record)
  | [] => .ok []
  | row :: rest => do
    let r ← parseRow row
    let rs ← read_csv rest
    .ok (r :: rs)

/-- The loading loop of the notebook followed by `dd.concat`: each source
file is read with `read_csv` in the order given and the resulting
dataframes are concatenated in that same order. -/
def loadSources : List (List (List String)) → Except LoadError (List Record)
  | [] => .ok []
  | src :: rest => do
    let d ← read_csv src
    let ds ← loadSources rest
    .ok (d ++ ds)

/-- The row filter of the notebook, a pandas boolean mask with an equality
predicate on the feature-class column: it keeps exactly the rows whose
feature-class field equals the chosen value, in their original order.  A
missing feature class compares unequal to every string, so such rows are
dropped. -/
def filterFeatureClass (df : List Record) (v : String) : List Record :=
  df.filter (fun r => r.featureClass == some v)

/-- `mountain_dd` of the notebook: the filter instantiated at the hardcoded
value `T` (the mountain feature class). -/
def mountain_dd (merged : List Record) : List Record :=
  filterFeatureClass merged "T"

/-- A point geometry.  Shapely stores the two coordinates exactly as given,
a NaN coordinate (`none`) included. -/
structure Point where
  x : Option ℚ
  y : Option ℚ
deriving DecidableEq

/-- `dg.points_from_xy(df, longitude, latitude, crs)` row by row: the point
whose x coordinate is the longitude value of the row and whose y
coordinate is the latitude value of the row. -/
def points_from_xy (r : Record) : Point :=
  ⟨r.longitude, r.latitude⟩

/-- The column assignment that sets the geometry column from
`points_from_xy`: every row is kept and paired with its point. -/
def assignGeometry (r : Record) : Record × Point :=
  (r, points_from_xy r)

/-- The error the specification assigns to the geometry stage. -/
inductive GeometryConstructionError where
  | invalidCoordinate
deriving DecidableEq

/-- Geometry construction viewed as a fallible per-row step.
`points_from_xy` performs no validation of its inputs: it builds the point
from whatever float values the row holds, NaN and out-of-range values
included, so construction succeeds on every row and the error branch of
this wrapper is never taken.  The wrapper exists so that the
failure claims of the specification about this stage can be stated. -/
def buildGeometry (r : Record) : Except GeometryConstructionError Point :=
  .ok (points_from_xy r)

/-- The CRS string passed to `points_from_xy` in the notebook. -/
def pipelineCrs : String := "EPSG:4326"

/-- The rows of the final GeoDataFrame `mountain_df`, for a merged
dataframe and a filter value: filter, then attach a geometry to each row.
`from_dask_dataframe` and `compute` only materialize the lazy collection
and do not change its rows. -/
def pipelineRows (df : List Record) (v : String) : List (Record × Point) :=
  (filterFeatureClass df v).map assignGeometry

/-- The same two stages executed partitionwise, as dask runs them: filter
and geometry assignment are applied to each partition independently and the
resulting partitions are concatenated in order. -/
def partitionedPipelineRows (parts : List (List Record)) (v : String) : List (Record × Point) :=
  (parts.map (fun p => pipelineRows p v)).flatten

/-- One named layer of a GeoPackage: its CRS, its text encoding and its
rows. -/
structure Layer where
  crs : String
  encoding : String
  rows : List (Record × Point)
deriving DecidableEq

/-- The error the specification assigns to a layer-name conflict in the
writer. -/
inductive WriteError where
  | layerConflict
deriving DecidableEq

/-- Contents of a GeoPackage container: its named layers in order. -/
abbrev Container := List (String × Layer)

/-- Layer creation inside a container: writing under a name that already
exists replaces that layer in place, leaving the other layers as they are;
otherwise the new layer is appended. -/
def setLayer : Container → String → Layer → Container
  | [], nm, l => [(nm, l)]
  | (n, old) :: rest, nm, l =>
    if n = nm then (nm, l) :: rest else (n, old) :: setLayer rest nm l

/-- `to_file(driver GPKG, filename, layer, encoding)` as called in the
notebook: the call passes no mode argument, so the geopandas default write
mode applies — the named layer is created, replacing an existing layer of
the same name; no conflict check is made, and no conflict error can arise
at this level. -/
def to_file (c : Container) (layerName : String) (l : Layer) : Except WriteError Container :=
  .ok (setLayer c layerName l)


@[simp] theorem error_bind {α β ε : Type} (e : ε) (f : α → Except ε β) :
    (Except.error e >>= f) = Except.error e := rfl

@[simp] theorem ok_bind {α β ε : Type} (a : α) (f : α → Except ε β) :
    (Except.ok a >>= f) = f a := rfl

@[simp] theorem isOk_ok {α ε : Type} (a : α) : (Except.ok (ε := ε) a).isOk = true := rfl

@[simp] theorem isOk_error {α ε : Type} (e : ε) : (Except.error (α := α) e).isOk = false := rfl

theorem fieldAt_eq_none {fields : List String} {i : Nat} (h : fields.length ≤ i) :
    fieldAt fields i = none := by
  simp [fieldAt, List.getElem?_eq_none h]

theorem parseRow_isOk_false_short (fields : List String) (h : fields.length ≤ 16) :
    (parseRow fields).isOk = false := by
  have h19 : ¬ 19 < fields.length := by omega
  have h16 : fieldAt fields 16 = none := fieldAt_eq_none (by omega)
  rw [parseRow, if_neg h19]
  cases h0 : coerceInt (fieldAt fields 0) <;>
  cases h4 : coerceFloat (fieldAt fields 4) <;>
  cases h5 : coerceFloat (fieldAt fields 5) <;>
  cases h14 : coerceInt (fieldAt fields 14) <;>
  cases h15 : coerceFloat (fieldAt fields 15) <;>
  simp [h0, h4, h5, h14, h15, h16, coerceInt]

theorem parseRow_ok_coords (fields : List String) (r : Record)
    (h : parseRow fields = Except.ok r) :
    coerceFloat (fieldAt fields 4) = Except.ok r.latitude ∧
    coerceFloat (fieldAt fields 5) = Except.ok r.longitude := by
  rw [parseRow] at h
  split at h
  · exact absurd h (by simp)
  · cases h0 : coerceInt (fieldAt fields 0) <;> rw [h0] at h
    · simp at h
    · cases h4 : coerceFloat (fieldAt fields 4) <;> rw [h4] at h
      · simp at h
      · cases h5 : coerceFloat (fieldAt fields 5) <;> rw [h5] at h
        · simp at h
        · cases h14 : coerceInt (fieldAt fields 14) <;> rw [h14] at h
          · simp at h
          · cases h15 : coerceFloat (fieldAt fields 15) <;> rw [h15] at h
            · simp at h
            · cases h16 : coerceInt (fieldAt fields 16) <;> rw [h16] at h
              · simp at h
              · simp only [ok_bind] at h
                injection h with h2
                subst h2
                exact ⟨rfl, rfl⟩


theorem parseRow_fails_of_lat_fails (fields : List String)
    (h : (coerceFloat (fieldAt fields 4)).isOk = false) :
    (parseRow fields).isOk = false := by
  cases hp : parseRow fields with
  | error e => rfl
  | ok r =>
    have hc := (parseRow_ok_coords fields r hp).1
    rw [hc] at h
    simp at h

theorem parseRow_fails_of_lon_fails (fields : List String)
    (h : (coerceFloat (fieldAt fields 5)).isOk = false) :
    (parseRow fields).isOk = false := by
  cases hp : parseRow fields with
  | error e => rfl
  | ok r =>
    have hc := (parseRow_ok_coords fields r hp).2
    rw [hc] at h
    simp at h

theorem read_csv_fails_of_mem (rows : List (List String)) (fields : List String)
    (hm : fields ∈ rows) (hf : (parseRow fields).isOk = false) :
    (read_csv rows).isOk = false := by
  induction rows with
  | nil => cases hm
  | cons row rest ih =>
    rw [read_csv]
    cases hm with
    | head =>
      cases hp : parseRow fields with
      | error e => simp [hp]
      | ok r => rw [hp] at hf; simp at hf
    | tail _ hm2 =>
      cases hp : parseRow row with
      | error e => simp [hp]
      | ok r =>
        simp only [hp, ok_bind]
        cases hrest : read_csv rest with
        | error e => simp
        | ok l =>
          have hfail := ih hm2
          rw [hrest] at hfail
          simp at hfail

theorem read_csv_append (s1 s2 : List (List String)) (l1 l2 : List Record)
    (h1 : read_csv s1 = Except.ok l1) (h2 : read_csv s2 = Except.ok l2) :
    read_csv (s1 ++ s2) = Except.ok (l1 ++ l2) := by
  induction s1 generalizing l1 with
  | nil =>
    rw [read_csv] at h1
    injection h1 with h1
    subst h1
    simpa using h2
  | cons row rest ih =>
    rw [read_csv] at h1
    cases hr : parseRow row <;> rw [hr] at h1
    · simp at h1
    · cases hrest : read_csv rest <;> rw [hrest] at h1
      · simp at h1
      · simp only [ok_bind] at h1
        injection h1 with h1
        subst h1
        rw [List.cons_append, read_csv, hr]
        simp only [ok_bind, ih _ hrest]
        rfl

theorem partitionedPipelineRows_eq (parts : List (List Record)) (v : String) :
    partitionedPipelineRows parts v = pipelineRows parts.flatten v := by
  induction parts with
  | nil => rfl
  | cons p ps ih =>
    simp only [partitionedPipelineRows, List.map_cons, List.flatten_cons] at ih ⊢
    rw [ih]
    simp [pipelineRows, filterFeatureClass, List.filter_append]

theorem lookup_setLayer (c : Container) (nm : String) (l : Layer) :
    (setLayer c nm l).lookup nm = some l := by
  induction c with
  | nil => simp [setLayer, List.lookup]
  | cons hd rest ih =>
    obtain ⟨n, old⟩ := hd
    by_cases h : n = nm
    · simp [setLayer, h, List.lookup]
    · have hne : (nm == n) = false := beq_eq_false_iff_ne.mpr (Ne.symm h)
      simp [setLayer, h, List.lookup, hne, ih]


/-- A full 19-field source row (the tab-separated fields of one line). -/
def rowA : List String :=
  ["1", "Alpha", "Alpha", "", "10.5", "-20.5", "T", "MT", "US", "",
   "", "", "", "", "0", "150", "150", "Zone", "2022-09-01"]

/-- An 18-field source row: the modification-date field is absent. -/
def rowB : List String :=
  ["2", "X", "X", "", "60", "-140", "T", "MT", "CA", "",
   "", "", "", "", "0", "100", "100", "Zone"]

/-- The record rowA loads to. -/
def recA : Record :=
  ⟨1, some "Alpha", some "Alpha", none, some (mkRat 105 10), some (mkRat (-205) 10),
   some "T", some "MT", some "US", none, none, none, none, none,
   0, some (mkRat 150 1), 150, some "Zone", some "2022-09-01"⟩

/-- The record rowB loads to: its modification date is missing. -/
def recB : Record :=
  ⟨2, some "X", some "X", none, some (mkRat 60 1), some (mkRat (-140) 1),
   some "T", some "MT", some "CA", none, none, none, none, none,
   0, some (mkRat 100 1), 100, some "Zone", none⟩

/-- A record whose latitude (100) and longitude (200) are outside the valid
coordinate ranges. -/
def badCoordRecord : Record :=
  ⟨3, some "Bad", some "Bad", none, some (mkRat 100 1), some (mkRat 200 1),
   some "T", some "MT", some "US", none, none, none, none, none,
   0, none, 0, some "Zone", none⟩

/-- A row whose latitude field is the non-numeric string abc. -/
def badLatRow : List String :=
  ["4", "B", "B", "", "abc", "-140", "T", "MT", "CA", "",
   "", "", "", "", "0", "100", "100", "Zone", "d"]

/-- An empty layer under the notebook CRS and encoding. -/
def mountainsLayerOld : Layer := ⟨pipelineCrs, "utf-8", []⟩

/-- A one-row layer under the notebook CRS and encoding. -/
def mountainsLayerNew : Layer := ⟨pipelineCrs, "utf-8", [assignGeometry recB]⟩

/-- A container that already holds a layer named mountains. -/
def existingContainer : Container := [("mountains", mountainsLayerOld)]

/-- C1: the Row Filter applied to a dataset with the predicate
feature-class == v returns exactly the records of the dataset whose
feature-class equals v — every record of the result occurs in the dataset
with feature-class v, no record with a different (or missing) feature class
occurs, and each selected record is the original record itself, so every
other attribute is unchanged. -/
theorem C1_row_filter_exact (df : List Record) (v : String) (r : Record) :
    r ∈ filterFeatureClass df v ↔ r ∈ df ∧ r.featureClass = some v := by
  simp [filterFeatureClass, List.mem_filter]

/-- C2: for every record with numeric (present) longitude and latitude, the
geometry attached by points_from_xy is the point with x the longitude and y
the latitude, the record itself passes through unchanged, and extracting
(x, y) from the geometry reproduces the original pair exactly. -/
theorem C2_geometry_roundtrip (r : Record) (lo la : ℚ)
    (hlo : r.longitude = some lo) (hla : r.latitude = some la) :
    (assignGeometry r).1 = r ∧
    (assignGeometry r).2.x = some lo ∧ (assignGeometry r).2.y = some la := by
  refine ⟨rfl, ?_, ?_⟩ <;> simp [assignGeometry, points_from_xy, hlo, hla]

/-- Witness for C2 at the concrete record recA. -/
theorem C2_witness :
    (assignGeometry recA).1 = recA ∧
    (assignGeometry recA).2.x = some (mkRat (-205) 10) ∧
    (assignGeometry recA).2.y = some (mkRat 105 10) :=
  C2_geometry_roundtrip recA (mkRat (-205) 10) (mkRat 105 10) rfl rfl

/-- C3 counterexample: badCoordRecord has latitude 100 > 90 and longitude
200 > 180, both outside the valid ranges, yet the geometry stage succeeds on
it — it does not fail with a GeometryConstructionError as the claim
states. -/
theorem C3_counterexample :
    (∃ la, badCoordRecord.latitude = some la ∧ 90 < la) ∧
    (∃ lo, badCoordRecord.longitude = some lo ∧ 180 < lo) ∧
    buildGeometry badCoordRecord = Except.ok (points_from_xy badCoordRecord) ∧
    (buildGeometry badCoordRecord).isOk = true := by
  refine ⟨⟨mkRat 100 1, rfl, by decide⟩, ⟨mkRat 200 1, rfl, by decide⟩, rfl, rfl⟩

/-- C3 amended: the Geometry Builder never fails.  For every record —
missing or out-of-range coordinates included — it succeeds and produces the
point whose x is the record longitude and whose y is the record latitude;
no per-record GeometryConstructionError exists in the code.  (Non-numeric
coordinates cannot reach this stage: the loader coerces both columns to
float, see C8.) -/
theorem C3_geometry_never_fails (r : Record) :
    buildGeometry r = Except.ok (points_from_xy r) ∧
    (points_from_xy r).x = r.longitude ∧ (points_from_xy r).y = r.latitude :=
  ⟨rfl, rfl, rfl⟩

/-- C5 counterexample: writing a layer named mountains to a container that
already holds a layer of that name succeeds and replaces the layer — the
writer does not fail with a LayerConflictError and does not leave the
existing layer untouched, and the call site exposes no policy choice. -/
theorem C5_counterexample :
    existingContainer.lookup "mountains" = some mountainsLayerOld ∧
    mountainsLayerNew ≠ mountainsLayerOld ∧
    to_file existingContainer "mountains" mountainsLayerNew =
      Except.ok [("mountains", mountainsLayerNew)] := by
  refine ⟨rfl, by decide, rfl⟩

/-- C5 amended: the writer call has no caller-selectable conflict policy
and never raises a LayerConflictError: it runs under the library default
(overwrite), always succeeds, and installs the new layer under the
requested name, replacing an existing layer of that name. -/
theorem C5_writer_overwrites (c : Container) (nm : String) (l : Layer) :
    to_file c nm l = Except.ok (setLayer c nm l) ∧
    (setLayer c nm l).lookup nm = some l :=
  ⟨rfl, lookup_setLayer c nm l⟩

/-- C6 counterexample: rowB has 18 fields, fewer than the 19 declared
columns, yet the loader loads it silently (the missing trailing field
becomes a missing value) instead of failing with a SchemaMismatchError. -/
theorem C6_counterexample :
    rowB.length = 18 ∧ read_csv [rowB] = Except.ok [recB] := by
  exact ⟨rfl, by decide⟩

/-- C6 amended: a short row is not rejected for its length — missing
trailing fields are padded as missing values (rowB above loads silently) —
and the load fails only when a missing field falls in a column declared
int: every row with at most 16 fields fails the load, because the int
column dem at position 16 is then missing and an int column cannot hold a
missing value. -/
theorem C6_loader_short_row (rows : List (List String)) (fields : List String)
    (hm : fields ∈ rows) (hlen : fields.length ≤ 16) :
    (read_csv rows).isOk = false :=
  read_csv_fails_of_mem rows fields hm (parseRow_isOk_false_short fields hlen)

/-- Witness for C6 at a concrete one-row source with a single field. -/
theorem C6_witness : (read_csv [["1"]]).isOk = false :=
  C6_loader_short_row [["1"]] ["1"] (by simp) (by decide)

/-- C7: loading two source files separately and concatenating (the loop and
dd.concat of the notebook, in the order given) yields the same rows as
loading the union of the source files in one read; duplicates are kept.
List equality is stated, which implies order-independent row-set
equality. -/
theorem C7_concat_union (s1 s2 : List (List String)) (l1 l2 : List Record)
    (h1 : read_csv s1 = Except.ok l1) (h2 : read_csv s2 = Except.ok l2) :
    loadSources [s1, s2] = Except.ok (l1 ++ l2) ∧
    read_csv (s1 ++ s2) = Except.ok (l1 ++ l2) := by
  constructor
  · rw [loadSources, h1]
    simp only [ok_bind]
    rw [loadSources, h2]
    simp only [ok_bind]
    rw [loadSources]
    simp
  · exact read_csv_append s1 s2 l1 l2 h1 h2

/-- Witness for C7 on two concrete one-row source files. -/
theorem C7_witness :
    loadSources [[rowA], [rowB]] = Except.ok ([recA] ++ [recB]) ∧
    read_csv ([rowA] ++ [rowB]) = Except.ok ([recA] ++ [recB]) :=
  C7_concat_union [rowA] [rowB] [recA] [recB] (by decide) (by decide)

/-- C8: the declared float dtype of the latitude and longitude columns
makes every successfully loaded record carry float-typed coordinates — a
present coordinate field of a loaded record is exactly the parsed numeral —
the geometry stage cannot fail on a loaded record, and a source row whose
latitude or longitude field is non-numeric fails the load itself. -/
theorem C8_float_coercion (fields : List String) :
    (∀ r, parseRow fields = Except.ok r → (buildGeometry r).isOk = true) ∧
    (∀ r s, parseRow fields = Except.ok r → fieldAt fields 4 = some s →
      ∃ q, parseFloat? s = some q ∧ r.latitude = some q) ∧
    (∀ r s, parseRow fields = Except.ok r → fieldAt fields 5 = some s →
      ∃ q, parseFloat? s = some q ∧ r.longitude = some q) ∧
    (∀ s, fieldAt fields 4 = some s → parseFloat? s = none →
      (parseRow fields).isOk = false) ∧
    (∀ s, fieldAt fields 5 = some s → parseFloat? s = none →
      (parseRow fields).isOk = false) := by
  refine ⟨fun r _ => rfl, ?_, ?_, ?_, ?_⟩
  · intro r s hok hfield
    have hc := (parseRow_ok_coords fields r hok).1
    rw [hfield] at hc
    cases hq : parseFloat? s with
    | none => rw [coerceFloat, hq] at hc; simp at hc
    | some q =>
      rw [coerceFloat, hq] at hc
      injection hc with hc
      exact ⟨q, rfl, hc.symm⟩
  · intro r s hok hfield
    have hc := (parseRow_ok_coords fields r hok).2
    rw [hfield] at hc
    cases hq : parseFloat? s with
    | none => rw [coerceFloat, hq] at hc; simp at hc
    | some q =>
      rw [coerceFloat, hq] at hc
      injection hc with hc
      exact ⟨q, rfl, hc.symm⟩
  · intro s hfield hq
    refine parseRow_fails_of_lat_fails fields ?_
    rw [hfield, coerceFloat, hq]
    rfl
  · intro s hfield hq
    refine parseRow_fails_of_lon_fails fields ?_
    rw [hfield, coerceFloat, hq]
    rfl

/-- Witness for C8: the row with non-numeric latitude field abc fails the
load, and a loaded numeric field 10.5 is stored as the parsed rational. -/
theorem C8_witness :
    (parseRow badLatRow).isOk = false ∧
    (∃ q, parseFloat? "10.5" = some q ∧ recA.latitude = some q) :=
  ⟨(C8_float_coercion badLatRow).2.2.2.1 "abc" (by decide) (by decide),
   (C8_float_coercion rowA).2.1 recA "10.5" (by decide) (by decide)⟩

/-- C9: the Row Filter is stable — the filtered dataset is a sublist of the
input dataset, so its records appear in exactly the relative order they had
in the input, and filtering distributes over the concatenation of loaded
sources, so that order is the concatenation order. -/
theorem C9_filter_stable :
    (∀ (df : List Record) (v : String), List.Sublist (filterFeatureClass df v) df) ∧
    (∀ (dfA dfB : List Record) (v : String),
      filterFeatureClass (dfA ++ dfB) v =
        filterFeatureClass dfA v ++ filterFeatureClass dfB v) := by
  constructor
  · intro df v
    exact List.filter_sublist df
  · intro dfA dfB v
    simp [filterFeatureClass, List.filter_append]

/-- C10: the pipeline is deterministic and partition-independent — any two
partitionings of the same merged dataset give the same filtered,
geometry-bearing rows, and writing them to the same container under the
same layer name, CRS and encoding gives the same resulting container. -/
theorem C10_partition_deterministic (partsA partsB : List (List Record))
    (v : String) (c : Container) (h : partsA.flatten = partsB.flatten) :
    partitionedPipelineRows partsA v = partitionedPipelineRows partsB v ∧
    to_file c "mountains" ⟨pipelineCrs, "utf-8", partitionedPipelineRows partsA v⟩ =
      to_file c "mountains" ⟨pipelineCrs, "utf-8", partitionedPipelineRows partsB v⟩ := by
  have e1 := partitionedPipelineRows_eq partsA v
  have e2 := partitionedPipelineRows_eq partsB v
  rw [e1, e2, h]
  exact ⟨rfl, rfl⟩

/-- Witness for C10 on a concrete two-record dataset split into one and two
partitions. -/
theorem C10_witness :
    partitionedPipelineRows [[recA], [recB]] "T" = partitionedPipelineRows [[recA, recB]] "T" ∧
    to_file [] "mountains" ⟨pipelineCrs, "utf-8", partitionedPipelineRows [[recA], [recB]] "T"⟩ =
      to_file [] "mountains" ⟨pipelineCrs, "utf-8", partitionedPipelineRows [[recA, recB]] "T"⟩ :=
  C10_partition_deterministic [[recA], [recB]] [[recA, recB]] "T" [] (by simp)

end SpatialPipeline
